import Mathlib

/-!
Shallow embedding of the seat-booking core of the movie booking backend
(`movies/models.py`, `movies/services.py`, `movies/views.py`,
`movies/serializers.py`, `common/utils.py`).

The database is modelled as an explicit state (`DB`): a list of `Show`
rows and a list of `Booking` rows.  Time (`timezone.now()`) is passed
explicitly as an integer timestamp `now`.  Python string operations used
by the code (`upper`, `strip`, `isalpha`, `isdigit`, `int(...)`) are
modelled char-wise over the ASCII range, the range the seat grammar uses.
All operations are sequential; each service call corresponds to one
`transaction.atomic` block, so an operation that raises leaves the state
unchanged.  Booking references (`booking_reference`, a random UUID slice)
interact with nothing the claims mention and are omitted from the row.
-/

namespace MovieBooking

/-- Restriction of Python `str.upper` to one ASCII character
(`'a'..'z'` map to `'A'..'Z'`, everything else is unchanged).  Python's
full case mapping also uppercases non-ASCII letters — possibly to
several characters — which this model does not cover; a theorem whose
truth depends on that carries an `asciiOnly` hypothesis. -/
def pyUpperChar (c : Char) : Char :=
  if 'a'.toNat ≤ c.toNat ∧ c.toNat ≤ 'z'.toNat then Char.ofNat (c.toNat - 32) else c

/-- Restriction of Python `str.upper` (`seat_number.upper()` in the
source) to ASCII, char-wise. -/
def pyUpper (s : String) : String :=
  ⟨s.data.map pyUpperChar⟩

/-- Python whitespace inside the ASCII range: exactly the ASCII
characters `str.isspace` accepts (0x09–0x0D, 0x1C–0x1F and space).
Python also treats non-ASCII Unicode whitespace as strippable, outside
this model. -/
def pyIsSpaceChar (c : Char) : Bool :=
  (decide (9 ≤ c.toNat) && decide (c.toNat ≤ 13)) ||
  (decide (28 ≤ c.toNat) && decide (c.toNat ≤ 31)) ||
  decide (c.toNat = 32)

/-- Restriction of Python `str.strip` to ASCII: drop ASCII whitespace
from both ends. -/
def pyStrip (s : String) : String :=
  ⟨((s.data.dropWhile pyIsSpaceChar).reverse.dropWhile pyIsSpaceChar).reverse⟩

/-- Restriction of Python `str.isalpha` to one ASCII character.  Python
also accepts non-ASCII Unicode letters, outside this model (the seat
grammar re-checks membership in `'A'..'Z'` right after). -/
def pyIsAlphaChar (c : Char) : Bool :=
  (decide ('A'.toNat ≤ c.toNat) && decide (c.toNat ≤ 'Z'.toNat)) ||
  (decide ('a'.toNat ≤ c.toNat) && decide (c.toNat ≤ 'z'.toNat))

/-- Restriction of Python `str.isdigit` to one ASCII character.  Python
also accepts non-ASCII Unicode decimal digits, which `int(...)` equally
converts, outside this model. -/
def pyIsDigitChar (c : Char) : Bool :=
  decide ('0'.toNat ≤ c.toNat) && decide (c.toNat ≤ '9'.toNat)

/-- Python `int(...)` on a string of ASCII digits. -/
def digitsToNat (cs : List Char) : Nat :=
  cs.foldl (fun n c => n * 10 + (c.toNat - '0'.toNat)) 0

/-- Test that a string stays inside the ASCII range — the domain on
which `pyUpper`, `pyStrip`, `pyIsAlphaChar` and `pyIsDigitChar`
coincide with Python's Unicode-aware `upper`, `strip`, `isalpha` and
`isdigit`. -/
def asciiOnly (s : String) : Bool :=
  s.data.all (fun c => decide (c.toNat ≤ 127))

/-- Status column of `Booking` (`STATUS_CHOICES`: `'booked'` / `'cancelled'`). -/
inductive BookingStatus where
  | booked
  | cancelled
deriving DecidableEq, Repr

/-- Test for the `'booked'` (Active) status. -/
def BookingStatus.isBooked : BookingStatus → Bool
  | booked => true
  | cancelled => false

/-- Row of the `Show` table: id, `date_time` (timestamp), `total_seats`.
Fields the claims never touch (movie, screen, price) are omitted. -/
structure Show where
  id : Nat
  date_time : Int
  total_seats : Nat
deriving DecidableEq, Repr

/-- Row of the `Booking` table.  `show_id` is the `show` foreign key
(`show` is a Lean keyword).  `user` is the owning user's id. -/
structure Booking where
  id : Nat
  user : Nat
  show_id : Nat
  seat_number : String
  status : BookingStatus
deriving DecidableEq, Repr

/-- Database state: the `Show` and `Booking` tables. -/
structure DB where
  shows : List Show
  bookings : List Booking
deriving DecidableEq, Repr

/-- One distinct `BookingError` / rejection per raise site of the source.
`seatTaken` carries the raw seat string because the source formats it into
the message (`f"Seat {seat_number} is already booked."`). -/
inductive BookingErr where
  | pastShow
  | showFull
  | seatTaken (seat_number : String)
  | invalidData
  | alreadyCancelled
  | cancelPastShow
  | failedCancel
  | emptySeat
  | badSeatFormat
  | badSeatRow
  | badSeatValue
deriving DecidableEq, Repr

/-- Predicate for an Active booking of seat `seat` on show `sid`
(the filter `show=..., seat_number=..., status='booked'`). -/
def matchesActive (sid : Nat) (seat : String) (b : Booking) : Bool :=
  b.show_id == sid && b.seat_number == seat && b.status.isBooked

/-- Predicate for an Active booking on show `sid`
(the filter `status='booked'` on `show.bookings`). -/
def activeForShow (sid : Nat) (b : Booking) : Bool :=
  b.show_id == sid && b.status.isBooked

/-- Count of Active bookings of a show
(`self.bookings.filter(status='booked').count()`). -/
def activeCount (bs : List Booking) (sid : Nat) : Nat :=
  bs.countP (activeForShow sid)

/-- Property `Show.available_seats`: `total_seats` minus the Active count
(Python integer arithmetic, so the value may in principle go negative). -/
def available_seats (bs : List Booking) (sh : Show) : Int :=
  (sh.total_seats : Int) - (activeCount bs sh.id : Int)

/-- Property `Show.is_fully_booked`: `available_seats <= 0`. -/
def is_fully_booked (bs : List Booking) (sh : Show) : Bool :=
  decide (available_seats bs sh ≤ 0)

/-- Method `Show.get_booked_seat_numbers`: seats of Active bookings. -/
def get_booked_seat_numbers (bs : List Booking) (sid : Nat) : List String :=
  (bs.filter (activeForShow sid)).map Booking.seat_number

/-- Autoincrement primary key for a new `Booking` row. -/
def freshId (bs : List Booking) : Nat :=
  (bs.map Booking.id).foldr max 0 + 1

/-- Django `clean_fields` on a `Booking`: `seat_number` is a non-blank
`CharField(max_length=10)`; `status` is valid by construction. -/
def clean_fields_ok (b : Booking) : Bool :=
  !(b.seat_number == "") && decide (b.seat_number.length ≤ 10)

/-- Method `Booking.clean`: no other Active booking for the same
(show, seat) (excluding this row's id), and a non-whitespace seat when
the seat string is non-empty. -/
def clean_ok (bs : List Booking) (b : Booking) : Bool :=
  !(bs.any (fun x => x.show_id == b.show_id && x.seat_number == b.seat_number
      && x.status.isBooked && !(x.id == b.id))) &&
  (b.seat_number == "" || !(pyStrip b.seat_number == ""))

/-- Django `validate_unique` for `unique_together = ['show', 'seat_number',
'status']`: no other row (excluding this row's id) with the same triple. -/
def validate_unique_ok (bs : List Booking) (b : Booking) : Bool :=
  !(bs.any (fun x => !(x.id == b.id) && x.show_id == b.show_id
      && x.seat_number == b.seat_number && decide (x.status = b.status)))

/-- Django `full_clean` as run by `Booking.save`. -/
def full_clean_ok (bs : List Booking) (b : Booking) : Bool :=
  clean_fields_ok b && clean_ok bs b && validate_unique_ok bs b

/-- Service `BookingService.create_booking` (one `transaction.atomic`
block): past-show check, fully-booked check, taken-seat check on the
uppercased seat, then insert guarded by `full_clean`.  Returns the result
together with the post-transaction state (unchanged on error). -/
def create_booking (now : Int) (db : DB) (user : Nat) (sh : Show)
    (seat_number : String) : Except BookingErr Booking × DB :=
  if sh.date_time ≤ now then (.error .pastShow, db)
  else if is_fully_booked db.bookings sh then (.error .showFull, db)
  else if (db.bookings.find? (matchesActive sh.id (pyUpper seat_number))).isSome then
    (.error (.seatTaken seat_number), db)
  else
    let b : Booking :=
      { id := freshId db.bookings, user := user, show_id := sh.id,
        seat_number := pyUpper seat_number, status := .booked }
    if full_clean_ok db.bookings b then
      (.ok b, { db with bookings := db.bookings ++ [b] })
    else (.error .invalidData, db)

/-- Property `Booking.can_be_cancelled`: the show is in the future and the
status is Active.  `sh` is the row the `show` foreign key resolves to. -/
def can_be_cancelled (now : Int) (sh : Show) (b : Booking) : Bool :=
  decide (now < sh.date_time) && b.status.isBooked

/-- Service `BookingService.cancel_booking`: already-cancelled guard,
past-show guard, then `Booking.cancel` (set status, `save` runs
`full_clean`; a `ValidationError` there is wrapped into the generic
"Failed to cancel booking" error).  `sh` is the booking's show row. -/
def cancel_booking (now : Int) (db : DB) (sh : Show) (b : Booking) :
    Except BookingErr Booking × DB :=
  if b.status = .cancelled then (.error .alreadyCancelled, db)
  else if !(can_be_cancelled now sh b) then (.error .cancelPastShow, db)
  else
    let b' : Booking := { b with status := .cancelled }
    if full_clean_ok db.bookings b' then
      (.ok b', { db with bookings := db.bookings.map (fun x => if x.id == b.id then b' else x) })
    else (.error .failedCancel, db)

/-- Outcome of the `cancel_booking` HTTP view. -/
inductive CancelViewErr where
  | notFound
  | permissionDenied
  | serializerInvalid
  | cancellationFailed (e : BookingErr)
deriving DecidableEq, Repr

/-- Lookup of a booking row by primary key (`get_object_or_404`). -/
def findBooking (db : DB) (bid : Nat) : Option Booking :=
  db.bookings.find? (fun b => b.id == bid)

/-- Lookup of a show row by primary key (foreign-key resolution). -/
def findShow (db : DB) (sid : Nat) : Option Show :=
  db.shows.find? (fun s => s.id == sid)

/-- View `cancel_booking` (`movies/views.py`): 404 lookup, ownership check
(403), `BookingCancelSerializer.validate`, then the service call.  Foreign
keys always resolve in states produced by the system; an unresolvable
`show_id` is reported as `notFound` to keep the function total. -/
def cancel_booking_view (now : Int) (db : DB) (bid : Nat) (request_user : Nat) :
    Except CancelViewErr Booking × DB :=
  match findBooking db bid with
  | none => (.error .notFound, db)
  | some b =>
    if !(b.user == request_user) then (.error .permissionDenied, db)
    else
      match findShow db b.show_id with
      | none => (.error .notFound, db)
      | some sh =>
        if b.status = .cancelled then (.error .serializerInvalid, db)
        else if !(can_be_cancelled now sh b) then (.error .serializerInvalid, db)
        else
          match cancel_booking now db sh b with
          | (.ok b', db') => (.ok b', db')
          | (.error e, db') => (.error (.cancellationFailed e), db')

/-- Utility `validate_seat_number_format` (`common/utils.py`): falsy check,
strip + upper, length at least 2, leading letter, digit tail, row in
`'A'..'Z'`, value in 1..99. -/
def validate_seat_number_format (seat_number : String) : Bool :=
  match (pyUpper (pyStrip seat_number)).data with
  | c :: d :: rest =>
    pyIsAlphaChar c && (d :: rest).all pyIsDigitChar &&
    (decide ('A'.toNat ≤ c.toNat) && decide (c.toNat ≤ 'Z'.toNat)) &&
    (decide (1 ≤ digitsToNat (d :: rest)) && decide (digitsToNat (d :: rest) ≤ 99))
  | _ => false

/-- Service `BookingService.validate_seat_number` (`show=None` path):
distinct raise sites for empty input, bad shape, bad row, bad value;
returns the normalized seat on success. -/
def validate_seat_number (seat_number : String) : Except BookingErr String :=
  if seat_number == "" || pyStrip seat_number == "" then .error .emptySeat
  else
    let sn := pyUpper (pyStrip seat_number)
    match sn.data with
    | c :: d :: rest =>
      if !(pyIsAlphaChar c && (d :: rest).all pyIsDigitChar) then .error .badSeatFormat
      else if !(decide ('A'.toNat ≤ c.toNat) && decide (c.toNat ≤ 'Z'.toNat)) then
        .error .badSeatRow
      else if !(decide (1 ≤ digitsToNat (d :: rest)) && decide (digitsToNat (d :: rest) ≤ 99)) then
        .error .badSeatValue
      else .ok sn
    | _ => .error .badSeatFormat

/-- Utility `is_show_bookable` (`common/utils.py`): the show's start time
is strictly in the future. -/
def is_show_bookable (now show_datetime : Int) : Bool :=
  decide (now < show_datetime)

/-- States reachable through the booking core: any initial show catalog
with distinct primary keys and no bookings, closed under `create_booking`
(the show is fetched from the catalog) and `cancel_booking` (the booking
is fetched from the table and `sh` is its resolved foreign key).  Both
error and success outcomes are covered since the operations return the
post-state in either case. -/
inductive Reachable : DB → Prop where
  | init (shows : List Show) (hids : (shows.map Show.id).Nodup) :
      Reachable ⟨shows, []⟩
  | book {db : DB} (now : Int) (user : Nat) (sh : Show) (seat : String)
      (hsh : sh ∈ db.shows) (hdb : Reachable db) :
      Reachable (create_booking now db user sh seat).2
  | cancel {db : DB} (now : Int) (sh : Show) (b : Booking)
      (hb : b ∈ db.bookings) (hsh : sh ∈ db.shows) (hfk : b.show_id = sh.id)
      (hdb : Reachable db) :
      Reachable (cancel_booking now db sh b).2

/-- Core invariant: at most one Active booking per (show, seat) pair. -/
def atMostOneActive (db : DB) : Prop :=
  ∀ sid seat, db.bookings.countP (matchesActive sid seat) ≤ 1

/-- Storage uniqueness constraint `unique_together = ['show', 'seat_number',
'status']` stated on a whole table: no two distinct rows agree on the
triple. -/
def unique_together_ok : List Booking → Bool
  | [] => true
  | b :: rest =>
    rest.all (fun x => !(x.show_id == b.show_id && x.seat_number == b.seat_number
      && decide (x.status = b.status))) && unique_together_ok rest

/-- Predicate for a booking of seat `seat` on show `sid` with status `st`. -/
def matchesKeyStatus (sid : Nat) (seat : String) (st : BookingStatus) (b : Booking) : Bool :=
  b.show_id == sid && b.seat_number == seat && decide (b.status = st)

/-- Existence of an Active booking for (show, seat), as the taken-seat
check of `create_booking` observes it. -/
def hasActive (db : DB) (sid : Nat) (seat : String) : Bool :=
  (db.bookings.find? (matchesActive sid seat)).isSome

/-- Modelled from the spec: the seat grammar as §4.2 words it — "one
letter A–Z followed by 1–2 digits forming a number in [1,99]" (after
trimming and uppercasing).  Stated only to compare the specified
acceptance set with the source's `validate_seat_number_format`. -/
def spec_seat_format (s : String) : Bool :=
  match (pyUpper (pyStrip s)).data with
  | [c, d] =>
    (decide ('A'.toNat ≤ c.toNat) && decide (c.toNat ≤ 'Z'.toNat)) &&
    pyIsDigitChar d &&
    (decide (1 ≤ digitsToNat [d]) && decide (digitsToNat [d] ≤ 99))
  | [c, d, e] =>
    (decide ('A'.toNat ≤ c.toNat) && decide (c.toNat ≤ 'Z'.toNat)) &&
    (pyIsDigitChar d && pyIsDigitChar e) &&
    (decide (1 ≤ digitsToNat [d, e]) && decide (digitsToNat [d, e] ≤ 99))
  | _ => false

/-- Replacement of the data embedded in a taken-seat message, used to
compare outcomes up to message formatting. -/
def maskSeatMessage : BookingErr → BookingErr
  | .seatTaken _ => .seatTaken ""
  | e => e

section Lemmas

/-- A map that can only fix points it keeps cannot raise a count. -/
theorem countP_map_le {α : Type} (f : α → α) (p : α → Bool)
    (h : ∀ x, p (f x) = true → f x = x) (l : List α) :
    (l.map f).countP p ≤ l.countP p := by
  induction l with
  | nil => simp
  | cons x t ih =>
    rw [List.map_cons, List.countP_cons, List.countP_cons]
    by_cases hfx : p (f x) = true
    · rw [h x hfx]
      omega
    · rw [if_neg hfx]
      omega

/-- Both services leave the `Show` table untouched. -/
theorem create_booking_shows_eq (now : Int) (db : DB) (user : Nat) (sh : Show)
    (seat : String) : (create_booking now db user sh seat).2.shows = db.shows := by
  unfold create_booking
  split
  · rfl
  · split
    · rfl
    · split
      · rfl
      · dsimp only
        split <;> rfl

/-- The cancellation service leaves the `Show` table untouched. -/
theorem cancel_booking_shows_eq (now : Int) (db : DB) (sh : Show) (b : Booking) :
    (cancel_booking now db sh b).2.shows = db.shows := by
  unfold cancel_booking
  split
  · rfl
  · split
    · rfl
    · dsimp only
      split <;> rfl

/-- Appending an Active booking whose (show, seat) key is absent keeps
every key's Active count at most one. -/
theorem atMostOne_append (bs : List Booking) (b : Booking)
    (hnone : bs.find? (matchesActive b.show_id b.seat_number) = none)
    (h : ∀ sid seat, bs.countP (matchesActive sid seat) ≤ 1) :
    ∀ sid seat, (bs ++ [b]).countP (matchesActive sid seat) ≤ 1 := by
  intro sid seat
  rw [List.countP_append]
  by_cases hb : matchesActive sid seat b = true
  · simp only [matchesActive, Bool.and_eq_true, beq_iff_eq] at hb
    obtain ⟨⟨hsid, hseat⟩, _⟩ := hb
    have hzero : bs.countP (matchesActive sid seat) = 0 := by
      refine List.countP_eq_zero.mpr (fun x hx => ?_)
      have hfx := List.find?_eq_none.mp hnone x hx
      rw [hsid, hseat] at hfx
      exact hfx
    rw [hzero]
    have : ([b].countP (matchesActive sid seat)) ≤ 1 := by
      rw [List.countP_cons, List.countP_nil]
      split <;> omega
    omega
  · have hone : ([b].countP (matchesActive sid seat)) = 0 := by
      rw [List.countP_cons]
      simp [List.countP_nil, hb]
    rw [hone]
    have := h sid seat
    omega

/-- `create_booking` preserves the at-most-one-Active invariant. -/
theorem create_preserves_atMostOne (now : Int) (db : DB) (user : Nat) (sh : Show)
    (seat : String) (h : atMostOneActive db) :
    atMostOneActive (create_booking now db user sh seat).2 := by
  unfold create_booking
  by_cases h1 : sh.date_time ≤ now
  · rw [if_pos h1]
    exact h
  rw [if_neg h1]
  by_cases h2 : is_fully_booked db.bookings sh = true
  · rw [if_pos h2]
    exact h
  rw [if_neg h2]
  by_cases h3 : (db.bookings.find? (matchesActive sh.id (pyUpper seat))).isSome = true
  · rw [if_pos h3]
    exact h
  rw [if_neg h3]
  dsimp only
  by_cases h4 : full_clean_ok db.bookings
      ⟨freshId db.bookings, user, sh.id, pyUpper seat, BookingStatus.booked⟩ = true
  · rw [if_pos h4]
    have hnone : db.bookings.find? (matchesActive sh.id (pyUpper seat)) = none := by
      cases hopt : db.bookings.find? (matchesActive sh.id (pyUpper seat))
      · rfl
      · rw [hopt] at h3
        simp at h3
    exact atMostOne_append db.bookings
      ⟨freshId db.bookings, user, sh.id, pyUpper seat, BookingStatus.booked⟩ hnone h
  · rw [if_neg h4]
    exact h

/-- `cancel_booking` preserves the at-most-one-Active invariant. -/
theorem cancel_preserves_atMostOne (now : Int) (db : DB) (sh : Show) (b : Booking)
    (h : atMostOneActive db) : atMostOneActive (cancel_booking now db sh b).2 := by
  unfold cancel_booking
  by_cases h1 : b.status = BookingStatus.cancelled
  · rw [if_pos h1]
    exact h
  rw [if_neg h1]
  by_cases h2 : (!can_be_cancelled now sh b) = true
  · rw [if_pos h2]
    exact h
  rw [if_neg h2]
  dsimp only
  by_cases h4 : full_clean_ok db.bookings { b with status := BookingStatus.cancelled } = true
  · rw [if_pos h4]
    intro sid seat
    refine le_trans (countP_map_le _ _ ?_ db.bookings) (h sid seat)
    intro x hx
    by_cases hid : (x.id == b.id) = true
    · exfalso
      rw [if_pos hid] at hx
      simp [matchesActive, BookingStatus.isBooked] at hx
    · rw [if_neg hid]
  · rw [if_neg h4]
    exact h

/-- An insertion permitted by the fully-booked guard keeps every show's
Active count within its capacity. -/
theorem create_preserves_capacity (now : Int) (db : DB) (user : Nat) (sh : Show)
    (seat : String) (hsh : sh ∈ db.shows) (hnodup : (db.shows.map Show.id).Nodup)
    (hcap : ∀ s ∈ db.shows, activeCount db.bookings s.id ≤ s.total_seats) :
    ∀ s ∈ (create_booking now db user sh seat).2.shows,
      activeCount (create_booking now db user sh seat).2.bookings s.id ≤ s.total_seats := by
  rw [create_booking_shows_eq]
  intro s hs
  unfold create_booking
  by_cases h1 : sh.date_time ≤ now
  · rw [if_pos h1]
    exact hcap s hs
  rw [if_neg h1]
  by_cases h2 : is_fully_booked db.bookings sh = true
  · rw [if_pos h2]
    exact hcap s hs
  rw [if_neg h2]
  by_cases h3 : (db.bookings.find? (matchesActive sh.id (pyUpper seat))).isSome = true
  · rw [if_pos h3]
    exact hcap s hs
  rw [if_neg h3]
  dsimp only
  by_cases h4 : full_clean_ok db.bookings
      ⟨freshId db.bookings, user, sh.id, pyUpper seat, BookingStatus.booked⟩ = true
  · rw [if_pos h4]
    show activeCount (db.bookings ++
      [⟨freshId db.bookings, user, sh.id, pyUpper seat, BookingStatus.booked⟩]) s.id ≤ s.total_seats
    unfold activeCount
    rw [List.countP_append]
    by_cases hsid : s.id = sh.id
    · have hseq : s = sh :=
        List.inj_on_of_nodup_map hnodup hs hsh hsid
      subst hseq
      have hlt : activeCount db.bookings s.id < s.total_seats := by
        unfold is_fully_booked available_seats at h2
        simp only [decide_eq_true_eq] at h2
        omega
      have hone : ([(⟨freshId db.bookings, user, s.id, pyUpper seat,
          BookingStatus.booked⟩ : Booking)].countP (activeForShow s.id)) = 1 := by
        rw [List.countP_cons, List.countP_nil]
        simp [activeForShow, BookingStatus.isBooked]
      rw [hone]
      unfold activeCount at hlt
      omega
    · have hne : sh.id ≠ s.id := fun hcontra => hsid hcontra.symm
      have hzero : ([(⟨freshId db.bookings, user, sh.id, pyUpper seat,
          BookingStatus.booked⟩ : Booking)].countP (activeForShow s.id)) = 0 := by
        rw [List.countP_cons, List.countP_nil]
        simp [activeForShow, BookingStatus.isBooked, hne]
      rw [hzero]
      have := hcap s hs
      unfold activeCount at this
      omega
  · rw [if_neg h4]
    exact hcap s hs

/-- Cancellation never raises any show's Active count. -/
theorem cancel_preserves_capacity (now : Int) (db : DB) (sh : Show) (b : Booking)
    (hcap : ∀ s ∈ db.shows, activeCount db.bookings s.id ≤ s.total_seats) :
    ∀ s ∈ (cancel_booking now db sh b).2.shows,
      activeCount (cancel_booking now db sh b).2.bookings s.id ≤ s.total_seats := by
  rw [cancel_booking_shows_eq]
  intro s hs
  unfold cancel_booking
  by_cases h1 : b.status = BookingStatus.cancelled
  · rw [if_pos h1]
    exact hcap s hs
  rw [if_neg h1]
  by_cases h2 : (!can_be_cancelled now sh b) = true
  · rw [if_pos h2]
    exact hcap s hs
  rw [if_neg h2]
  dsimp only
  by_cases h4 : full_clean_ok db.bookings { b with status := BookingStatus.cancelled } = true
  · rw [if_pos h4]
    show activeCount (db.bookings.map
      (fun x => if x.id == b.id then { b with status := BookingStatus.cancelled } else x))
        s.id ≤ s.total_seats
    unfold activeCount
    refine le_trans (countP_map_le _ _ ?_ db.bookings) (hcap s hs)
    intro x hx
    by_cases hid : (x.id == b.id) = true
    · exfalso
      rw [if_pos hid] at hx
      simp [activeForShow, BookingStatus.isBooked] at hx
    · rw [if_neg hid]
  · rw [if_neg h4]
    exact hcap s hs

/-- Reachable stores keep distinct show ids and respect every show's
capacity. -/
theorem reachable_capacity (db : DB) (hr : Reachable db) :
    (db.shows.map Show.id).Nodup ∧
      ∀ sh ∈ db.shows, activeCount db.bookings sh.id ≤ sh.total_seats := by
  induction hr with
  | init shows hids =>
    exact ⟨hids, fun sh _ => by simp [activeCount]⟩
  | book now user sh seat hsh hdb ih =>
    obtain ⟨hnodup, hcap⟩ := ih
    refine ⟨by rw [create_booking_shows_eq]; exact hnodup, ?_⟩
    exact create_preserves_capacity now _ user sh seat hsh hnodup hcap
  | cancel now sh b hb hsh hfk hdb ih =>
    obtain ⟨hnodup, hcap⟩ := ih
    refine ⟨by rw [cancel_booking_shows_eq]; exact hnodup, ?_⟩
    exact cancel_preserves_capacity now _ sh b hcap

/-- Value of `pyUpperChar` on the code-point level: lower-case ASCII
letters drop by 32, everything else is unchanged. -/
theorem pyUpperChar_toNat (c : Char) :
    (pyUpperChar c).toNat =
      if 'a'.toNat ≤ c.toNat ∧ c.toNat ≤ 'z'.toNat then c.toNat - 32 else c.toNat := by
  unfold pyUpperChar
  split
  · rename_i h
    have ha : 'a'.toNat = 97 := rfl
    have hz : 'z'.toNat = 122 := rfl
    have hval : (c.toNat - 32).isValidChar := Or.inl (by omega)
    rw [Char.ofNat, dif_pos hval]
    rfl
  · rfl

/-- Characters outside the lower-case ASCII range are fixed points. -/
theorem pyUpperChar_eq_self (c : Char)
    (h : ¬('a'.toNat ≤ c.toNat ∧ c.toNat ≤ 'z'.toNat)) : pyUpperChar c = c := by
  unfold pyUpperChar
  rw [if_neg h]

/-- Uppercasing a character twice is the same as uppercasing it once. -/
theorem pyUpperChar_idem (c : Char) : pyUpperChar (pyUpperChar c) = pyUpperChar c := by
  have ha : 'a'.toNat = 97 := rfl
  have hz : 'z'.toNat = 122 := rfl
  by_cases h : 'a'.toNat ≤ c.toNat ∧ c.toNat ≤ 'z'.toNat
  · have hd : (pyUpperChar c).toNat = c.toNat - 32 := by
      rw [pyUpperChar_toNat, if_pos h]
    exact pyUpperChar_eq_self _ (by omega)
  · rw [pyUpperChar_eq_self c h]
    exact pyUpperChar_eq_self c h

/-- Uppercasing a string twice is the same as uppercasing it once. -/
theorem pyUpper_idem (s : String) : pyUpper (pyUpper s) = pyUpper s := by
  show String.mk ((s.data.map pyUpperChar).map pyUpperChar) = String.mk (s.data.map pyUpperChar)
  congr 1
  rw [List.map_map]
  exact List.map_congr_left (fun c _ => by
    show pyUpperChar (pyUpperChar c) = pyUpperChar c
    exact pyUpperChar_idem c)

/-- `create_booking` only stores seats in the image of `pyUpper`. -/
theorem create_preserves_norm (now : Int) (db : DB) (user : Nat) (sh : Show)
    (seat : String) (h : ∀ b ∈ db.bookings, b.seat_number = pyUpper b.seat_number) :
    ∀ b ∈ (create_booking now db user sh seat).2.bookings,
      b.seat_number = pyUpper b.seat_number := by
  unfold create_booking
  by_cases h1 : sh.date_time ≤ now
  · rw [if_pos h1]
    exact h
  rw [if_neg h1]
  by_cases h2 : is_fully_booked db.bookings sh = true
  · rw [if_pos h2]
    exact h
  rw [if_neg h2]
  by_cases h3 : (db.bookings.find? (matchesActive sh.id (pyUpper seat))).isSome = true
  · rw [if_pos h3]
    exact h
  rw [if_neg h3]
  dsimp only
  by_cases h4 : full_clean_ok db.bookings
      ⟨freshId db.bookings, user, sh.id, pyUpper seat, BookingStatus.booked⟩ = true
  · rw [if_pos h4]
    intro b hb
    rw [List.mem_append] at hb
    cases hb with
    | inl hold => exact h b hold
    | inr hnew =>
      rw [List.mem_singleton] at hnew
      subst hnew
      show pyUpper seat = pyUpper (pyUpper seat)
      exact (pyUpper_idem seat).symm
  · rw [if_neg h4]
    exact h

/-- `cancel_booking` of a stored row keeps stored seats in the image of
`pyUpper`. -/
theorem cancel_preserves_norm (now : Int) (db : DB) (sh : Show) (b0 : Booking)
    (hb0 : b0 ∈ db.bookings)
    (h : ∀ b ∈ db.bookings, b.seat_number = pyUpper b.seat_number) :
    ∀ b ∈ (cancel_booking now db sh b0).2.bookings,
      b.seat_number = pyUpper b.seat_number := by
  unfold cancel_booking
  by_cases h1 : b0.status = BookingStatus.cancelled
  · rw [if_pos h1]
    exact h
  rw [if_neg h1]
  by_cases h2 : (!can_be_cancelled now sh b0) = true
  · rw [if_pos h2]
    exact h
  rw [if_neg h2]
  dsimp only
  by_cases h4 : full_clean_ok db.bookings { b0 with status := BookingStatus.cancelled } = true
  · rw [if_pos h4]
    intro b hb
    rw [List.mem_map] at hb
    obtain ⟨x, hx, hfx⟩ := hb
    by_cases hid : (x.id == b0.id) = true
    · rw [if_pos hid] at hfx
      subst hfx
      exact h b0 hb0
    · rw [if_neg hid] at hfx
      subst hfx
      exact h x hx
  · rw [if_neg h4]
    exact h

/-- A boolean that is not true is false. -/
theorem bool_eq_false_of_ne_true {b : Bool} (h : ¬ b = true) : b = false := by
  cases b
  · rfl
  · exact absurd rfl h

end Lemmas

/-- C1.  At-most-one-Active-booking invariant: every reachable store has
at most one Active booking per (show, seat) pair, and both the booking
and the cancellation service preserve the invariant from any state. -/
theorem C1_at_most_one_active :
    (∀ db : DB, Reachable db → atMostOneActive db) ∧
    (∀ (now : Int) (db : DB) (user : Nat) (sh : Show) (seat : String),
      atMostOneActive db → atMostOneActive (create_booking now db user sh seat).2) ∧
    (∀ (now : Int) (db : DB) (sh : Show) (b : Booking),
      atMostOneActive db → atMostOneActive (cancel_booking now db sh b).2) := by
  refine ⟨?_, fun now db user sh seat h => create_preserves_atMostOne now db user sh seat h,
    fun now db sh b h => cancel_preserves_atMostOne now db sh b h⟩
  intro db hr
  induction hr with
  | init shows hids =>
    intro sid seat
    simp [List.countP_nil]
  | book now user sh seat hsh hdb ih =>
    exact create_preserves_atMostOne now _ user sh seat ih
  | cancel now sh b hb hsh hfk hdb ih =>
    exact cancel_preserves_atMostOne now _ sh b ih

/-- C1 witness: the invariant holds in the store obtained by booking seat
"A1" on show 1 starting from a one-show catalog. -/
theorem C1_at_most_one_active_witness :
    atMostOneActive (create_booking 0 ⟨[⟨1, 10, 5⟩], []⟩ 7 ⟨1, 10, 5⟩ "A1").2 :=
  C1_at_most_one_active.1 _
    (Reachable.book 0 7 ⟨1, 10, 5⟩ "A1" (by simp) (Reachable.init [⟨1, 10, 5⟩] (by simp)))

/-- C7.  Capacity invariant: in every reachable store each show's Active
booking count is at most its `total_seats`, and `create_booking` answers
the fully-booked error whenever a future show's Active count has reached
its capacity, so no operation pushes a count above capacity. -/
theorem C7_capacity_invariant :
    (∀ db : DB, Reachable db →
      ∀ sh ∈ db.shows, activeCount db.bookings sh.id ≤ sh.total_seats) ∧
    (∀ (now : Int) (db : DB) (user : Nat) (sh : Show) (seat : String),
      now < sh.date_time → sh.total_seats ≤ activeCount db.bookings sh.id →
      (create_booking now db user sh seat).1 = .error .showFull) := by
  constructor
  · intro db hr
    exact (reachable_capacity db hr).2
  · intro now db user sh seat hfut hfull
    unfold create_booking
    rw [if_neg (by omega : ¬ sh.date_time ≤ now)]
    rw [if_pos (by
      unfold is_fully_booked available_seats
      simp only [decide_eq_true_eq]
      omega)]

/-- C7 witness: a reachable one-booking store respects capacity, and a
full future show refuses another seat with the fully-booked error. -/
theorem C7_capacity_invariant_witness :
    (∀ sh ∈ (create_booking 0 ⟨[⟨2, 10, 1⟩], []⟩ 7 ⟨2, 10, 1⟩ "A1").2.shows,
      activeCount (create_booking 0 ⟨[⟨2, 10, 1⟩], []⟩ 7 ⟨2, 10, 1⟩ "A1").2.bookings
        sh.id ≤ sh.total_seats) ∧
    (create_booking 0 ⟨[⟨2, 10, 1⟩], [⟨1, 7, 2, "A1", .booked⟩]⟩ 9 ⟨2, 10, 1⟩ "B1").1 =
      .error .showFull :=
  ⟨C7_capacity_invariant.1 _
      (Reachable.book 0 7 ⟨2, 10, 1⟩ "A1" (by simp) (Reachable.init [⟨2, 10, 1⟩] (by simp))),
    C7_capacity_invariant.2 0 ⟨[⟨2, 10, 1⟩], [⟨1, 7, 2, "A1", .booked⟩]⟩ 9 ⟨2, 10, 1⟩ "B1"
      (by decide) (by decide)⟩

/-- C8.  Past-show rejection: `create_booking` fails with the past-show
error exactly when the show's `date_time` is at or before `now`, i.e.
exactly when `is_show_bookable` is false; a show strictly in the future
passes the timing check. -/
theorem C8_past_show_rejection_iff (now : Int) (db : DB) (user : Nat) (sh : Show)
    (seat : String) :
    (create_booking now db user sh seat).1 = .error .pastShow ↔
      is_show_bookable now sh.date_time = false := by
  unfold create_booking is_show_bookable
  by_cases h : sh.date_time ≤ now
  · simp [h]
  · have h2 : now < sh.date_time := by omega
    simp only [if_neg h]
    constructor
    · intro hcontra
      split at hcontra
      · simp at hcontra
      · split at hcontra
        · simp at hcontra
        · split at hcontra <;> simp at hcontra
    · intro hcontra
      simp at hcontra
      omega

/-- C9.  Authorization: cancelling someone else's booking through the
`cancel_booking` view fails with the permission-denied outcome and leaves
the whole store unchanged (in particular the booking stays Active). -/
theorem C9_unauthorized_cancel_unchanged (now : Int) (db : DB) (bid : Nat)
    (request_user : Nat) (b : Booking) (hfind : findBooking db bid = some b)
    (howner : b.user ≠ request_user) :
    cancel_booking_view now db bid request_user = (.error .permissionDenied, db) := by
  unfold cancel_booking_view
  rw [hfind]
  simp [howner]

/-- C9 witness: user 9 cancelling user 7's active booking is rejected and
the store is unchanged. -/
theorem C9_unauthorized_cancel_unchanged_witness :
    cancel_booking_view 0 ⟨[⟨1, 10, 5⟩], [⟨1, 7, 1, "A1", .booked⟩]⟩ 1 9 =
      (.error .permissionDenied, ⟨[⟨1, 10, 5⟩], [⟨1, 7, 1, "A1", .booked⟩]⟩) :=
  C9_unauthorized_cancel_unchanged 0 ⟨[⟨1, 10, 5⟩], [⟨1, 7, 1, "A1", .booked⟩]⟩ 1 9
    ⟨1, 7, 1, "A1", .booked⟩ rfl (by decide)

/-- C3 counterexample: a future show with capacity 1 whose only seat "A1"
is Active.  Booking "A1" again returns the fully-booked error, not the
taken-seat error, because `create_booking` checks `is_fully_booked`
before the taken-seat lookup. -/
theorem C3_full_show_taken_seat_counterexample :
    create_booking 0 ⟨[⟨1, 10, 1⟩], [⟨1, 7, 1, "A1", .booked⟩]⟩ 8 ⟨1, 10, 1⟩ "A1" =
      (.error .showFull, ⟨[⟨1, 10, 1⟩], [⟨1, 7, 1, "A1", .booked⟩]⟩) ∧
    BookingErr.showFull ≠ BookingErr.seatTaken "A1" :=
  ⟨rfl, by decide⟩

/-- C3 amended: on a future show whose requested seat (uppercased) already
has an Active booking, `create_booking` answers the fully-booked error
when the show is full and the taken-seat error otherwise — the capacity
check comes first. -/
theorem C3_capacity_check_precedes_seat_check (now : Int) (db : DB) (user : Nat)
    (sh : Show) (seat : String) (hfut : now < sh.date_time)
    (htaken : hasActive db sh.id (pyUpper seat) = true) :
    (create_booking now db user sh seat).1 =
      if is_fully_booked db.bookings sh then .error .showFull
      else .error (.seatTaken seat) := by
  unfold create_booking
  rw [if_neg (by omega : ¬ sh.date_time ≤ now)]
  unfold hasActive at htaken
  by_cases hfull : is_fully_booked db.bookings sh
  · simp [hfull]
  · simp [hfull, htaken]

/-- C3 amended witness: on a future show with spare capacity a taken seat
yields the taken-seat error. -/
theorem C3_capacity_check_precedes_seat_check_witness :
    (create_booking 0 ⟨[⟨1, 10, 5⟩], [⟨1, 7, 1, "A1", .booked⟩]⟩ 8 ⟨1, 10, 5⟩ "a1").1 =
      if is_fully_booked [⟨1, 7, 1, "A1", .booked⟩] ⟨1, 10, 5⟩ then .error .showFull
      else .error (.seatTaken "a1") :=
  C3_capacity_check_precedes_seat_check 0 ⟨[⟨1, 10, 5⟩], [⟨1, 7, 1, "A1", .booked⟩]⟩ 8
    ⟨1, 10, 5⟩ "a1" (by decide) rfl

/-- C4 counterexample: two distinct Cancelled rows for the same
(show, seat) violate the `unique_together = ['show', 'seat_number',
'status']` constraint — the constraint does not permit several Cancelled
rows for one seat. -/
theorem C4_two_cancelled_rows_counterexample :
    unique_together_ok [⟨1, 7, 1, "A1", .cancelled⟩, ⟨2, 8, 1, "A1", .cancelled⟩] = false :=
  rfl

/-- C4 amended: the `(show, seat_number, status)` uniqueness constraint
permits at most one row per status value for each (show, seat) pair — at
most one Active row and also at most one Cancelled row — and it does
allow one Cancelled row to coexist with one Active row for the same
seat. -/
theorem C4_at_most_one_row_per_status :
    (∀ bs : List Booking, unique_together_ok bs = true →
      ∀ (sid : Nat) (seat : String) (st : BookingStatus),
        bs.countP (matchesKeyStatus sid seat st) ≤ 1) ∧
    unique_together_ok [⟨1, 7, 1, "A1", .cancelled⟩, ⟨2, 8, 1, "A1", .booked⟩] = true := by
  constructor
  · intro bs
    induction bs with
    | nil =>
      intro _ sid seat st
      simp [List.countP_nil]
    | cons b rest ih =>
      intro h sid seat st
      rw [unique_together_ok, Bool.and_eq_true] at h
      obtain ⟨hall, hrest⟩ := h
      rw [List.countP_cons]
      by_cases hb : matchesKeyStatus sid seat st b = true
      · have hb' := hb
        simp only [matchesKeyStatus, Bool.and_eq_true, beq_iff_eq, decide_eq_true_eq] at hb'
        obtain ⟨⟨hsid, hseat⟩, hst⟩ := hb'
        have hzero : rest.countP (matchesKeyStatus sid seat st) = 0 := by
          refine List.countP_eq_zero.mpr (fun x hx hcontra => ?_)
          simp only [matchesKeyStatus, Bool.and_eq_true, beq_iff_eq, decide_eq_true_eq]
            at hcontra

          obtain ⟨⟨hxsid, hxseat⟩, hxst⟩ := hcontra
          have hxall := List.all_eq_true.mp hall x hx
          have htriple : (x.show_id == b.show_id && x.seat_number == b.seat_number
              && decide (x.status = b.status)) = true := by
            simp [beq_iff_eq, decide_eq_true_eq, hxsid, hsid, hxseat, hseat, hxst, hst]
          rw [htriple] at hxall
          simp at hxall
        rw [hzero, if_pos hb]
      · rw [if_neg hb]
        have := ih hrest sid seat st
        omega
  · rfl

/-- C4 amended witness: the Cancelled-row count and the Active-row count
of seat "A1" are both at most one in a table the constraint accepts. -/
theorem C4_at_most_one_row_per_status_witness :
    List.countP (matchesKeyStatus 1 "A1" BookingStatus.cancelled)
      [⟨1, 7, 1, "A1", .cancelled⟩, ⟨2, 8, 1, "A1", .booked⟩] ≤ 1 ∧
    List.countP (matchesKeyStatus 1 "A1" BookingStatus.booked)
      [⟨1, 7, 1, "A1", .cancelled⟩, ⟨2, 8, 1, "A1", .booked⟩] ≤ 1 :=
  ⟨C4_at_most_one_row_per_status.1 [⟨1, 7, 1, "A1", .cancelled⟩, ⟨2, 8, 1, "A1", .booked⟩]
      rfl 1 "A1" BookingStatus.cancelled,
    C4_at_most_one_row_per_status.1 [⟨1, 7, 1, "A1", .cancelled⟩, ⟨2, 8, 1, "A1", .booked⟩]
      rfl 1 "A1" BookingStatus.booked⟩

/-- C5 counterexample: "A001" — an ASCII string, on which the embedded
string primitives coincide with Python's — is one letter followed by
three digits, so the specified grammar (1–2 digits) rejects it, yet both
the utility validator and the service validator accept it: the source
only bounds the numeric value, not the digit count. -/
theorem C5_leading_zero_counterexample :
    asciiOnly "A001" = true ∧
    validate_seat_number_format "A001" = true ∧
    spec_seat_format "A001" = false ∧
    validate_seat_number "A001" = .ok "A001" :=
  ⟨rfl, rfl, rfl, rfl⟩

/-- C5 amended, stated on the ASCII domain where the embedded `upper`,
`strip`, `isalpha` and `isdigit` coincide with Python's Unicode-aware
ones (outside ASCII the real validators also admit Unicode decimal
digits, letters that uppercase into A–Z, and Unicode whitespace, which
the grammar below does not describe): for every ASCII input, after
trimming and uppercasing the validators accept exactly the strings made
of one letter A–Z followed by one or more digits whose value lies in
[1,99] — the digit count is not limited to two, so leading zeros are
admitted.  The service validator accepts exactly the strings the
utility validator accepts, mirroring their identical logic.  "A1"
passes while "1A", "AA", "A100" and "" fail. -/
theorem C5_seat_format_characterization :
    (∀ s : String, asciiOnly s = true →
      (validate_seat_number_format s = true ↔
        ∃ c ds, (pyUpper (pyStrip s)).data = c :: ds ∧
          'A'.toNat ≤ c.toNat ∧ c.toNat ≤ 'Z'.toNat ∧ ds ≠ [] ∧
          (∀ d ∈ ds, pyIsDigitChar d = true) ∧
          1 ≤ digitsToNat ds ∧ digitsToNat ds ≤ 99)) ∧
    (∀ s : String, (∃ t, validate_seat_number s = .ok t) ↔
      validate_seat_number_format s = true) ∧
    validate_seat_number_format "A1" = true ∧
    validate_seat_number_format "1A" = false ∧
    validate_seat_number_format "AA" = false ∧
    validate_seat_number_format "A100" = false ∧
    validate_seat_number_format "" = false := by
  refine ⟨?_, ?_, rfl, rfl, rfl, rfl, rfl⟩
  · intro s _hascii
    unfold validate_seat_number_format
    cases hdata : (pyUpper (pyStrip s)).data with
    | nil => simp
    | cons c tail =>
      cases tail with
      | nil => simp
      | cons d rest =>
        dsimp only
        constructor
        · intro hb
          simp only [Bool.and_eq_true, decide_eq_true_eq, List.all_eq_true] at hb
          obtain ⟨⟨⟨halpha, hdig⟩, hA, hZ⟩, h1, h99⟩ := hb
          exact ⟨c, d :: rest, rfl, hA, hZ, by simp, hdig, h1, h99⟩
        · rintro ⟨c', ds, hds, hA, hZ, hne, hdig, h1, h99⟩
          injection hds with hc hds2
          subst hc
          subst hds2
          simp only [Bool.and_eq_true, decide_eq_true_eq, List.all_eq_true]
          refine ⟨⟨⟨?_, hdig⟩, hA, hZ⟩, h1, h99⟩
          unfold pyIsAlphaChar
          simp only [Bool.or_eq_true, Bool.and_eq_true, decide_eq_true_eq]
          exact Or.inl ⟨hA, hZ⟩
  · intro s
    by_cases hemp : (s == "" || pyStrip s == "") = true
    · have hstrip : pyStrip s = "" := by
        simp only [Bool.or_eq_true, beq_iff_eq] at hemp
        cases hemp with
        | inl hs =>
          rw [hs]
          rfl
        | inr hs => exact hs
      have hdata : (pyUpper (pyStrip s)).data = [] := by
        rw [hstrip]
        rfl
      constructor
      · rintro ⟨t, ht⟩
        unfold validate_seat_number at ht
        rw [if_pos hemp] at ht
        exact absurd ht (by simp)
      · intro hf
        unfold validate_seat_number_format at hf
        rw [hdata] at hf
        simp at hf
    · unfold validate_seat_number validate_seat_number_format
      rw [if_neg hemp]
      dsimp only
      cases hdata : (pyUpper (pyStrip s)).data with
      | nil => simp
      | cons c tail =>
        cases tail with
        | nil => simp
        | cons d rest =>
          dsimp only
          by_cases hg1 : (pyIsAlphaChar c && (d :: rest).all pyIsDigitChar) = true
          · rw [if_neg (by rw [hg1]; decide)]
            by_cases hg2 : (decide ('A'.toNat ≤ c.toNat) && decide (c.toNat ≤ 'Z'.toNat)) = true
            · rw [if_neg (by rw [hg2]; decide)]
              by_cases hg3 : (decide (1 ≤ digitsToNat (d :: rest)) &&
                  decide (digitsToNat (d :: rest) ≤ 99)) = true
              · rw [if_neg (by rw [hg3]; decide)]
                constructor
                · intro _
                  rw [hg1, hg2, hg3]
                  rfl
                · intro _
                  exact ⟨pyUpper (pyStrip s), rfl⟩
              · have hg3f := bool_eq_false_of_ne_true hg3
                rw [if_pos (by rw [hg3f]; rfl)]
                constructor
                · rintro ⟨t, ht⟩
                  exact absurd ht (by simp)
                · intro hf
                  rw [hg3f] at hf
                  simp at hf
            · have hg2f := bool_eq_false_of_ne_true hg2
              rw [if_pos (by rw [hg2f]; rfl)]
              constructor
              · rintro ⟨t, ht⟩
                exact absurd ht (by simp)
              · intro hf
                rw [hg2f] at hf
                simp at hf
          · have hg1f := bool_eq_false_of_ne_true hg1
            rw [if_pos (by rw [hg1f]; rfl)]
            constructor
            · rintro ⟨t, ht⟩
              exact absurd ht (by simp)
            · intro hf
              rw [hg1f] at hf
              simp at hf

/-- C5 amended witness: the characterization applied to the concrete
ASCII input " a07 ", which trims and uppercases to "A07". -/
theorem C5_seat_format_characterization_witness :
    validate_seat_number_format " a07 " = true ↔
      ∃ c ds, (pyUpper (pyStrip " a07 ")).data = c :: ds ∧
        'A'.toNat ≤ c.toNat ∧ c.toNat ≤ 'Z'.toNat ∧ ds ≠ [] ∧
        (∀ d ∈ ds, pyIsDigitChar d = true) ∧
        1 ≤ digitsToNat ds ∧ digitsToNat ds ≤ 99 :=
  C5_seat_format_characterization.1 " a07 " (by decide)

/-- C6 (code bug): book seat "A1", cancel it, book it again — all succeed
— then the cancellation of the second, Active booking fails with the
generic cancellation failure: saving the second Cancelled row violates
`unique_together = ['show', 'seat_number', 'status']` inside
`full_clean`, although the claim (and the spec's idempotent-cancellation
guard) says the first `Cancel` of an Active booking on a future show
succeeds. -/
theorem C6_cancel_after_rebook_fails :
    create_booking 0 ⟨[⟨1, 10, 5⟩], []⟩ 7 ⟨1, 10, 5⟩ "A1" =
      (.ok ⟨1, 7, 1, "A1", .booked⟩, ⟨[⟨1, 10, 5⟩], [⟨1, 7, 1, "A1", .booked⟩]⟩) ∧
    cancel_booking 0 ⟨[⟨1, 10, 5⟩], [⟨1, 7, 1, "A1", .booked⟩]⟩ ⟨1, 10, 5⟩
        ⟨1, 7, 1, "A1", .booked⟩ =
      (.ok ⟨1, 7, 1, "A1", .cancelled⟩, ⟨[⟨1, 10, 5⟩], [⟨1, 7, 1, "A1", .cancelled⟩]⟩) ∧
    create_booking 0 ⟨[⟨1, 10, 5⟩], [⟨1, 7, 1, "A1", .cancelled⟩]⟩ 8 ⟨1, 10, 5⟩ "A1" =
      (.ok ⟨2, 8, 1, "A1", .booked⟩,
        ⟨[⟨1, 10, 5⟩], [⟨1, 7, 1, "A1", .cancelled⟩, ⟨2, 8, 1, "A1", .booked⟩]⟩) ∧
    cancel_booking 0 ⟨[⟨1, 10, 5⟩], [⟨1, 7, 1, "A1", .cancelled⟩, ⟨2, 8, 1, "A1", .booked⟩]⟩
        ⟨1, 10, 5⟩ ⟨2, 8, 1, "A1", .booked⟩ =
      (.error .failedCancel,
        ⟨[⟨1, 10, 5⟩], [⟨1, 7, 1, "A1", .cancelled⟩, ⟨2, 8, 1, "A1", .booked⟩]⟩) :=
  ⟨rfl, rfl, rfl, rfl⟩

/-- C10 counterexample: with "A1" Active on a show with spare capacity,
booking "a1" and booking "A1" produce different outcomes — the taken-seat
error embeds the raw, non-uppercased input in its message — so the full
outcome does not depend on the seat string only through its uppercased
form. -/
theorem C10_raw_message_counterexample :
    pyUpper "a1" = pyUpper "A1" ∧
    create_booking 0 ⟨[⟨1, 10, 5⟩], [⟨1, 7, 1, "A1", .booked⟩]⟩ 9 ⟨1, 10, 5⟩ "a1" =
      (.error (.seatTaken "a1"), ⟨[⟨1, 10, 5⟩], [⟨1, 7, 1, "A1", .booked⟩]⟩) ∧
    create_booking 0 ⟨[⟨1, 10, 5⟩], [⟨1, 7, 1, "A1", .booked⟩]⟩ 9 ⟨1, 10, 5⟩ "A1" =
      (.error (.seatTaken "A1"), ⟨[⟨1, 10, 5⟩], [⟨1, 7, 1, "A1", .booked⟩]⟩) ∧
    BookingErr.seatTaken "a1" ≠ BookingErr.seatTaken "A1" :=
  ⟨rfl, rfl, rfl, by decide⟩

/-- C10 amended: apart from the raw seat string echoed inside the
taken-seat message, `create_booking` depends on the seat only through its
uppercased form: two inputs with equal `pyUpper` images yield the same
store and the same outcome up to that message, a successful booking
stores exactly the uppercased seat, and every seat stored in a reachable
store is a fixed point of `pyUpper`. -/
theorem C10_seat_normalization :
    (∀ (now : Int) (db : DB) (user : Nat) (sh : Show) (s1 s2 : String),
      pyUpper s1 = pyUpper s2 →
      (create_booking now db user sh s1).1.mapError maskSeatMessage =
        (create_booking now db user sh s2).1.mapError maskSeatMessage ∧
      (create_booking now db user sh s1).2 = (create_booking now db user sh s2).2) ∧
    (∀ (now : Int) (db : DB) (user : Nat) (sh : Show) (s : String) (b : Booking) (db' : DB),
      create_booking now db user sh s = (.ok b, db') → b.seat_number = pyUpper s) ∧
    (∀ db : DB, Reachable db → ∀ b ∈ db.bookings, b.seat_number = pyUpper b.seat_number) := by
  refine ⟨?_, ?_, ?_⟩
  · intro now db user sh s1 s2 h
    unfold create_booking
    rw [h]
    by_cases h1 : sh.date_time ≤ now
    · rw [if_pos h1, if_pos h1]
      exact ⟨rfl, rfl⟩
    rw [if_neg h1, if_neg h1]
    by_cases h2 : is_fully_booked db.bookings sh = true
    · rw [if_pos h2, if_pos h2]
      exact ⟨rfl, rfl⟩
    rw [if_neg h2, if_neg h2]
    by_cases h3 : (db.bookings.find? (matchesActive sh.id (pyUpper s2))).isSome = true
    · rw [if_pos h3, if_pos h3]
      exact ⟨rfl, rfl⟩
    rw [if_neg h3, if_neg h3]
    dsimp only
    by_cases h4 : full_clean_ok db.bookings
        ⟨freshId db.bookings, user, sh.id, pyUpper s2, BookingStatus.booked⟩ = true
    · rw [if_pos h4]
      exact ⟨rfl, rfl⟩
    · rw [if_neg h4]
      exact ⟨rfl, rfl⟩
  · intro now db user sh s b db' heq
    unfold create_booking at heq
    by_cases h1 : sh.date_time ≤ now
    · rw [if_pos h1] at heq
      simp [Prod.ext_iff] at heq
    rw [if_neg h1] at heq
    by_cases h2 : is_fully_booked db.bookings sh = true
    · rw [if_pos h2] at heq
      simp [Prod.ext_iff] at heq
    rw [if_neg h2] at heq
    by_cases h3 : (db.bookings.find? (matchesActive sh.id (pyUpper s))).isSome = true
    · rw [if_pos h3] at heq
      simp [Prod.ext_iff] at heq
    rw [if_neg h3] at heq
    dsimp only at heq
    by_cases h4 : full_clean_ok db.bookings
        ⟨freshId db.bookings, user, sh.id, pyUpper s, BookingStatus.booked⟩ = true
    · rw [if_pos h4] at heq
      simp only [Prod.ext_iff, Except.ok.injEq] at heq
      rw [← heq.1]
    · rw [if_neg h4] at heq
      simp [Prod.ext_iff] at heq
  · intro db hr
    induction hr with
    | init shows hids =>
      intro b hb
      simp at hb
    | book now user sh seat hsh hdb ih =>
      exact create_preserves_norm now _ user sh seat ih
    | cancel now sh b hb hsh hfk hdb ih =>
      exact cancel_preserves_norm now _ sh b hb ih

/-- C10 amended witness: with "A1" taken, booking "a1" and "A1" give the
same store and the same outcome up to the echoed message. -/
theorem C10_seat_normalization_witness :
    (create_booking 0 ⟨[⟨1, 10, 5⟩], [⟨1, 7, 1, "A1", .booked⟩]⟩ 9
        ⟨1, 10, 5⟩ "a1").1.mapError maskSeatMessage =
      (create_booking 0 ⟨[⟨1, 10, 5⟩], [⟨1, 7, 1, "A1", .booked⟩]⟩ 9
        ⟨1, 10, 5⟩ "A1").1.mapError maskSeatMessage ∧
    (create_booking 0 ⟨[⟨1, 10, 5⟩], [⟨1, 7, 1, "A1", .booked⟩]⟩ 9 ⟨1, 10, 5⟩ "a1").2 =
      (create_booking 0 ⟨[⟨1, 10, 5⟩], [⟨1, 7, 1, "A1", .booked⟩]⟩ 9 ⟨1, 10, 5⟩ "A1").2 :=
  C10_seat_normalization.1 0 ⟨[⟨1, 10, 5⟩], [⟨1, 7, 1, "A1", .booked⟩]⟩ 9 ⟨1, 10, 5⟩
    "a1" "A1" rfl

end MovieBooking
